import Mathlib

/-!
Verification of the ServiceNow-Agent repository.

This file gives a shallow embedding, in Lean 4, of the parts of the
repository that the specification's testable properties talk about:

* the Server-Sent-Events aggregation loop of `query_agent`
  (src/test-webhook/main.py, lines 138-186),
* the session cache `create_session` (src/test-webhook/main.py, lines 34-93),
* the top-level webhook dispatcher `teams_webhook`
  (src/test-webhook/main.py, lines 212-318),
* the ServiceNow client tool functions (src/tools.py).

Python values decoded from JSON are modelled by the inductive type `JVal`;
Python dictionaries are association lists; exceptions are modelled by
`Option` results (`none` = the Python operation raises) so that the
`try/except` blocks of the source become explicit case splits.  External
library calls (`requests`, `json.loads`, token acquisition, `uuid.uuid4`)
are modelled as explicit inputs (oracles) of the embedded functions.

The file is organised as definitions first, then lemmas and the claim
theorems.
-/

/-- A decoded JSON value, the result of Python's `json.loads` / the argument
of `jsonify`.  Objects are association lists (as produced by `json.loads`,
keys are unique, insertion ordered).  JSON numbers are modelled as integers;
no code path in this repository depends on float values. -/
inductive JVal where
  | null
  | bool (b : Bool)
  | num (n : Int)
  | str (s : String)
  | arr (elems : List JVal)
  | obj (fields : List (String × JVal))

namespace JVal

mutual

/-- Structural (boolean) equality on `JVal`, modelling Python `==` on
JSON-decoded values (used for dictionary-key lookup). -/
def beq : JVal → JVal → Bool
  | .null, .null => true
  | .bool a, .bool b => a == b
  | .num a, .num b => a == b
  | .str a, .str b => a == b
  | .arr a, .arr b => beqList a b
  | .obj a, .obj b => beqFields a b
  | _, _ => false

/-- Pointwise `beq` on lists of values. -/
def beqList : List JVal → List JVal → Bool
  | [], [] => true
  | x :: xs, y :: ys => beq x y && beqList xs ys
  | _, _ => false

/-- Pointwise `beq` on dictionary entries. -/
def beqFields : List (String × JVal) → List (String × JVal) → Bool
  | [], [] => true
  | x :: xs, y :: ys => (x.1 == y.1 && beq x.2 y.2) && beqFields xs ys
  | _, _ => false

end

/-- First-match association-list lookup: models Python `d[k]` / `d.get(k)`
on a dict decoded from JSON (keys unique, so first match = the match). -/
def lookupField : List (String × JVal) → String → Option JVal
  | [], _ => none
  | kv :: rest, k => if kv.1 = k then some kv.2 else lookupField rest k

/-- Models Python `k in d` for a dict `d`. -/
def hasField (fs : List (String × JVal)) (k : String) : Bool :=
  fs.any (fun kv => kv.1 == k)

/-- Python truthiness (`if x:`) of a JSON-decoded value: `None`, `False`,
`0`, `""`, `[]`, `\x7b\x7d` are falsy, everything else truthy. -/
def pyTruthy : JVal → Bool
  | .null => false
  | .bool b => b
  | .num n => n != 0
  | .str s => s != ""
  | .arr l => !l.isEmpty
  | .obj fs => !fs.isEmpty

/-- Models Python `v == some_string_literal` on a JSON-decoded value. -/
def isStr (j : JVal) (s : String) : Bool :=
  match j with
  | .str t => t == s
  | _ => false

/-- Whether `n` occurs as a contiguous run inside the second list. -/
def hasRun (n : List Char) : List Char → Bool
  | [] => n.isEmpty
  | c :: rest => n.isPrefixOf (c :: rest) || hasRun n rest

/-- Substring test, used to model Python's `needle in haystack` on strings. -/
def strContains (hay needle : String) : Bool :=
  needle == "" || hasRun needle.data hay.data

/-- Models the Python `in` operator applied to a JSON-decoded value:
key membership for dicts, element membership for lists, substring test for
strings; `none` models the `TypeError` raised for numbers, booleans, `None`. -/
def pyIn (key : String) : JVal → Option Bool
  | .obj fs => some (hasField fs key)
  | .arr es => some (es.any (fun e => isStr e key))
  | .str s => some (strContains s key)
  | _ => none

/-- Models Python `x[key]` with a string key: a value for dicts holding the
key, `none` models the `TypeError`/`KeyError` raised otherwise. -/
def pySubscript (j : JVal) (key : String) : Option JVal :=
  match j with
  | .obj fs => lookupField fs key
  | _ => none

/-- Models Python iteration `for x in v` over a JSON-decoded value:
elements of a list, characters of a string (each a one-character string),
keys of a dict; `none` models the `TypeError` for non-iterables. -/
def pyIter : JVal → Option (List JVal)
  | .arr es => some es
  | .str s => some (s.toList.map (fun c => JVal.str c.toString))
  | .obj fs => some (fs.map (fun kv => JVal.str kv.1))
  | _ => none

end JVal

/-- Models Python `s.startswith(p)` (structurally, over the character
list). -/
def pyStartsWith (s p : String) : Bool :=
  p.data.isPrefixOf s.data

/-- Models Python character slicing `s[n:]`. -/
def pyDrop (s : String) (n : Nat) : String :=
  ⟨s.data.drop n⟩

/-- Models Python `s.strip()`: remove leading and trailing whitespace
(space, tab, carriage return, newline). -/
def pyStrip (s : String) : String :=
  ⟨(((s.data.dropWhile Char.isWhitespace).reverse).dropWhile Char.isWhitespace).reverse⟩

/-!
## SSE aggregation loop of `query_agent` (src/test-webhook/main.py, 138-186)

The loop body for one stream line is embedded below.  `json.loads` is an
external library function; it is modelled as an oracle
`loads : String → Option JVal` where `none` models a raised
`json.JSONDecodeError`.  Any other exception raised while handling a line
(`TypeError` from the `in` operator, subscripting, iteration, or `+=`) is
caught by the loop's generic `except` and the loop continues with the next
line; appends to `full_response` made before such an exception persist.
-/

namespace SSE

open JVal

/-- One iteration of `for part in content['parts']`.  Returns the new
accumulator and `false` when the iteration raised (so that the remaining
parts of this event are not processed).  Python source:
`if 'text' in part:` then `text_chunk = part['text']`, then
`if 'function_call' not in part: full_response += text_chunk`. -/
def processPart (acc : String) (part : JVal) : String × Bool :=
  match pyIn "text" part with
  | none => (acc, false)
  | some false => (acc, true)
  | some true =>
    match part with
    | .obj fs =>
      match lookupField fs "text" with
      | some (.str t) =>
        if hasField fs "function_call" then (acc, true) else (acc ++ t, true)
      | some _ =>
        if hasField fs "function_call" then (acc, true) else (acc, false)
      | none => (acc, true)
    | _ => (acc, false)

/-- The `for part in content['parts']` loop, stopping at the first part
whose handling raises. -/
def processParts (acc : String) : List JVal → String
  | [] => acc
  | p :: ps =>
    match processPart acc p with
    | (a, true) => processParts a ps
    | (a, false) => a

/-- Handling of one decoded SSE event: the `if 'content' in data` /
`elif 'text' in data` block of `query_agent`.  Every case where the Python
code would raise returns the accumulator unchanged (the exception is caught
by the per-line `except` and the loop continues). -/
def processEvent (acc : String) (data : JVal) : String :=
  match pyIn "content" data with
  | none => acc
  | some true =>
    match pySubscript data "content" with
    | none => acc
    | some content =>
      match pyIn "parts" content with
      | none => acc
      | some true =>
        match pySubscript content "parts" with
        | none => acc
        | some partsVal =>
          match pyIter partsVal with
          | none => acc
          | some parts => processParts acc parts
      | some false => acc
  | some false =>
    match pyIn "text" data with
    | none => acc
    | some true =>
      match pySubscript data "text" with
      | none => acc
      | some (.str t) => acc ++ t
      | some _ => acc
    | some false => acc

/-- Removal of the SSE `data: ` prefix (`line_text[6:]`). -/
def stripData (line : String) : String :=
  if pyStartsWith line "data: " then pyDrop line 6 else line

/-- Handling of one raw stream line: skip empty lines and the `[DONE]`
marker, parse the rest as JSON (`loads`), dispatch to `processEvent`;
a decode failure leaves the accumulator unchanged and the loop continues. -/
def processLine (loads : String → Option JVal) (acc : String) (line : String) : String :=
  if line = "" then acc
  else
    let lt := stripData line
    if pyStrip lt = "" || pyStrip lt = "[DONE]" then acc
    else
      match loads lt with
      | none => acc
      | some data => processEvent acc data

/-- The whole `for line in response.iter_lines()` loop: the value of
`full_response` after consuming the stream. -/
def aggregateLines (loads : String → Option JVal) (lines : List String) : String :=
  lines.foldl (processLine loads) ""

/-- A stream line that reaches `json.loads` (nonempty, not blank after
prefix stripping, not the `[DONE]` marker) and decodes to the event `e`. -/
def decodesTo (loads : String → Option JVal) (line : String) (e : JVal) : Prop :=
  line ≠ "" ∧ pyStrip (stripData line) ≠ "" ∧ pyStrip (stripData line) ≠ "[DONE]" ∧
    loads (stripData line) = some e

/-- A part whose handling cannot raise: a dict whose `text` value, if any,
is a string. -/
def goodPartB : JVal → Bool
  | .obj fs =>
    match lookupField fs "text" with
    | none => true
    | some (.str _) => true
    | some _ => false
  | _ => false

/-- An event of the documented stream shape: a dict whose `content` value is
a dict whose `parts` value is a list of well-formed parts. -/
def goodEventB : JVal → Bool
  | .obj fs =>
    match lookupField fs "content" with
    | some (.obj cs) =>
      match lookupField cs "parts" with
      | some (.arr parts) => parts.all goodPartB
      | _ => false
    | _ => false
  | _ => false

/-- Concatenation of a list of strings, in order. -/
def strConcat : List String → String
  | [] => ""
  | s :: ss => s ++ strConcat ss

/-- Modelled from the spec: the text a single part contributes to the reply
— its `text` value when it has a `text` field and no `function_call` field,
nothing otherwise. -/
def specPartText : JVal → String
  | .obj fs =>
    match lookupField fs "text" with
    | some (.str t) => if hasField fs "function_call" then "" else t
    | _ => ""
  | _ => ""

/-- Modelled from the spec: the text one event contributes to the reply —
the in-order concatenation of its parts' contributions. -/
def specEventText : JVal → String
  | .obj fs =>
    match lookupField fs "content" with
    | some (.obj cs) =>
      match lookupField cs "parts" with
      | some (.arr parts) => strConcat (parts.map specPartText)
      | _ => ""
    | _ => ""
  | _ => ""

end SSE

/-!
## ServiceNow client tool functions (src/tools.py)

Each Python tool function builds query parameters or a JSON body, issues one
`requests.get/post/patch` call with `timeout=30` against
`SNOW_BASE_URL + path`, calls `response.raise_for_status()`, and returns
`response.json()`; the whole body is wrapped in
`try: ... except Exception as e: return {"error": str(e)}`.

The `requests` library is modelled as an oracle `Net` mapping the issued
request to an `HttpOutcome`: either a server response (status plus decoded
JSON body, `none` when the body is not valid JSON so that `response.json()`
raises) or a raised exception (network error, timeout, ...) carrying its
`str(e)` message.  `Response.raise_for_status` raises `HTTPError` exactly
for status codes 400-599 (client/server errors); its exception message
contains the status code and the URL, never the response body.
Basic-auth credentials and HTTP headers carry no logic that any claim
touches and are not modelled.  Each embedded tool returns the Python return
value together with the list of HTTP requests it issued.
-/

namespace Snow

open JVal

/-- The fixed ServiceNow table-API base URL (src/tools.py, line 35). -/
def SNOW_BASE_URL : String := "https://...service-now.com/api/now/table"

/-- HTTP method of an issued request. -/
inductive Method where
  | get
  | post
  | patch

/-- One HTTP request issued through the `requests` library: method, path
under the base URL, query parameters (`params=`), JSON body (`json=`), and
the `timeout=` argument in seconds. -/
structure SnowRequest where
  method : Method
  path : String
  params : List (String × JVal)
  body : Option JVal
  timeout : Nat

/-- Result of one `requests` call: a server response (`body = none` models
a body that is not valid JSON, so `response.json()` raises), or a raised
exception (connection error, timeout, ...) with its `str(e)` message. -/
inductive HttpOutcome where
  | resp (status : Nat) (body : Option JVal)
  | exn (msg : String)

/-- The network oracle: what the `requests` library does for a request. -/
def Net : Type := SnowRequest → HttpOutcome

/-- Whether `Response.raise_for_status()` raises: exactly for 4xx and 5xx
status codes (the `requests` library raises `HTTPError` for
`400 <= status_code < 600` and for no other status). -/
def raiseForStatus (status : Nat) : Bool :=
  decide (400 ≤ status) && decide (status < 600)

/-- Models `str(e)` of the `HTTPError` raised by `raise_for_status`: the
message is built from the status code, a fixed reason phrase and the URL;
the response body never appears in it. -/
def httpErrorMsg (status : Nat) (url : String) : String :=
  toString status ++
    (if status < 500 then " Client Error: for url: " else " Server Error: for url: ") ++ url

/-- Models `str(e)` of the JSON decode error raised by `response.json()`
on a body that is not valid JSON. -/
def jsonDecodeErrMsg : String := "Expecting value: line 1 column 1 (char 0)"

/-- Models `str(e)` of the `AttributeError` raised by calling `.get` on a
decoded JSON value that is not a dict. -/
def noGetAttrMsg : String := "AttributeError: no attribute get"

/-- The shared tail of every tool: `response.raise_for_status()` then
`return response.json()`, inside `except Exception as e:
return {"error": str(e)}`. -/
def finishRequest (url : String) (o : HttpOutcome) : JVal :=
  match o with
  | .exn msg => JVal.obj [("error", .str msg)]
  | .resp status body =>
    if raiseForStatus status then JVal.obj [("error", .str (httpErrorMsg status url))]
    else
      match body with
      | some j => j
      | none => JVal.obj [("error", .str jsonDecodeErrMsg)]

/-- Shared shape of the tools that issue a single `requests.get` call. -/
def snowGet (net : Net) (path : String) (params : List (String × JVal)) :
    JVal × List SnowRequest :=
  let req : SnowRequest := ⟨.get, path, params, none, 30⟩
  (finishRequest (SNOW_BASE_URL ++ path) (net req), [req])

/-- Shared shape of the tools that issue a single `requests.post` call. -/
def snowPost (net : Net) (path : String) (body : List (String × JVal)) :
    JVal × List SnowRequest :=
  let req : SnowRequest := ⟨.post, path, [], some (.obj body), 30⟩
  (finishRequest (SNOW_BASE_URL ++ path) (net req), [req])

/-- Shared shape of the tools that issue a single `requests.patch` call. -/
def snowPatch (net : Net) (path : String) (body : List (String × JVal)) :
    JVal × List SnowRequest :=
  let req : SnowRequest := ⟨.patch, path, [], some (.obj body), 30⟩
  (finishRequest (SNOW_BASE_URL ++ path) (net req), [req])

/-- src/tools.py 43-73.  Python defaults: `query="active=true"`, `limit=10`. -/
def list_incidents (net : Net) (query : String) (limit : Int) : JVal × List SnowRequest :=
  snowGet net "/incident"
    [("sysparm_query", .str query), ("sysparm_limit", .num limit),
     ("sysparm_display_value", .str "true")]

/-- src/tools.py 96-110: the JSON body of `create_incident`.  The first four
fields are always present (`description`, `priority`, `urgency` default to
`""`, `"3"`, `"3"`); the last four are included only when truthy
(non-empty). -/
def create_incident_data (short_description description priority urgency
    assignment_group assigned_to category subcategory : String) :
    List (String × JVal) :=
  [("short_description", .str short_description), ("description", .str description),
   ("priority", .str priority), ("urgency", .str urgency)]
  ++ (if assignment_group ≠ "" then [("assignment_group", JVal.str assignment_group)] else [])
  ++ (if assigned_to ≠ "" then [("assigned_to", JVal.str assigned_to)] else [])
  ++ (if category ≠ "" then [("category", JVal.str category)] else [])
  ++ (if subcategory ≠ "" then [("subcategory", JVal.str subcategory)] else [])

/-- src/tools.py 75-124. -/
def create_incident (net : Net) (short_description description priority urgency
    assignment_group assigned_to category subcategory : String) :
    JVal × List SnowRequest :=
  snowPost net "/incident"
    (create_incident_data short_description description priority urgency
      assignment_group assigned_to category subcategory)

/-- src/tools.py 126-149. -/
def get_incident (net : Net) (sys_id : String) : JVal × List SnowRequest :=
  snowGet net ("/incident/" ++ sys_id) [("sysparm_display_value", .str "true")]

/-- Python `if x:` inclusion of an optional string field (default `None`):
included exactly when the argument is a non-empty string. -/
def optStrField (k : String) : Option String → List (String × JVal)
  | some s => if s ≠ "" then [(k, JVal.str s)] else []
  | none => []

/-- Python `data.update(kwargs)`: values of existing keys are replaced,
new keys are appended in order. -/
def dictUpdate (base upd : List (String × JVal)) : List (String × JVal) :=
  base.map (fun kv =>
    match lookupField upd kv.1 with
    | some v => (kv.1, v)
    | none => kv)
  ++ upd.filter (fun kv => !(hasField base kv.1))

/-- src/tools.py 170-181: the PATCH body of `update_incident` — the five
named optional fields, each included only when truthy, then
`data.update(kwargs)`. -/
def update_incident_data (state work_notes close_notes assignment_group
    assigned_to : Option String) (kwargs : List (String × JVal)) :
    List (String × JVal) :=
  dictUpdate
    (optStrField "state" state ++ optStrField "work_notes" work_notes ++
     optStrField "close_notes" close_notes ++
     optStrField "assignment_group" assignment_group ++
     optStrField "assigned_to" assigned_to)
    kwargs

/-- src/tools.py 151-195. -/
def update_incident (net : Net) (sys_id : String) (state work_notes close_notes
    assignment_group assigned_to : Option String)
    (kwargs : List (String × JVal)) : JVal × List SnowRequest :=
  snowPatch net ("/incident/" ++ sys_id)
    (update_incident_data state work_notes close_notes assignment_group
      assigned_to kwargs)

/-- src/tools.py 199-229.  Defaults: `query="active=true"`, `limit=10`. -/
def list_service_requests (net : Net) (query : String) (limit : Int) :
    JVal × List SnowRequest :=
  snowGet net "/sc_req_item"
    [("sysparm_query", .str query), ("sysparm_limit", .num limit),
     ("sysparm_display_value", .str "true")]

/-- src/tools.py 231-265.  All four body fields are always sent. -/
def create_service_request (net : Net) (catalog_item short_description
    description : String) (quantity : Int) : JVal × List SnowRequest :=
  snowPost net "/sc_req_item"
    [("cat_item", .str catalog_item), ("short_description", .str short_description),
     ("description", .str description), ("quantity", .num quantity)]

/-- src/tools.py 267-290. -/
def get_service_request (net : Net) (sys_id : String) : JVal × List SnowRequest :=
  snowGet net ("/sc_req_item/" ++ sys_id) [("sysparm_display_value", .str "true")]

/-- src/tools.py 294-329.  Defaults: `category=""`, `limit=50`. -/
def list_catalog_items (net : Net) (category : String) (limit : Int) :
    JVal × List SnowRequest :=
  snowGet net "/sc_cat_item"
    [("sysparm_query",
      .str ("active=true" ++ (if category ≠ "" then "^categoryLIKE" ++ category else ""))),
     ("sysparm_limit", .num limit),
     ("sysparm_fields", .str "sys_id,name,short_description,description,category,price,picture"),
     ("sysparm_display_value", .str "true")]

/-- src/tools.py 331-362.  Default: `limit=20`. -/
def search_catalog_items (net : Net) (search_term : String) (limit : Int) :
    JVal × List SnowRequest :=
  snowGet net "/sc_cat_item"
    [("sysparm_query",
      .str ("active=true^nameLIKE" ++ search_term ++ "^ORshort_descriptionLIKE" ++
        search_term ++ "^ORdescriptionLIKE" ++ search_term)),
     ("sysparm_limit", .num limit),
     ("sysparm_fields", .str "sys_id,name,short_description,category,price"),
     ("sysparm_display_value", .str "true")]

/-- src/tools.py 364-387. -/
def get_catalog_item_details (net : Net) (sys_id : String) : JVal × List SnowRequest :=
  snowGet net ("/sc_cat_item/" ++ sys_id) [("sysparm_display_value", .str "true")]

/-- src/tools.py 389-419.  Default: `limit=50`. -/
def list_catalog_categories (net : Net) (limit : Int) : JVal × List SnowRequest :=
  snowGet net "/sc_category"
    [("sysparm_query", .str "active=true"), ("sysparm_limit", .num limit),
     ("sysparm_fields", .str "sys_id,title,description,parent"),
     ("sysparm_display_value", .str "true")]

/-- The probe request of `get_incident_categories` (src/tools.py 431-442). -/
def sysChoiceProbeReq : SnowRequest :=
  ⟨.get, "/sys_choice",
   [("sysparm_query", .str "name=incident^element=category"), ("sysparm_limit", .num 1)],
   none, 30⟩

/-- The second request of `get_incident_categories` (src/tools.py 449-461). -/
def sysChoiceListReq (limit : Int) : SnowRequest :=
  ⟨.get, "/sys_choice",
   [("sysparm_query", .str "name=incident^element=category^inactive=false"),
    ("sysparm_limit", .num limit), ("sysparm_fields", .str "label,value")],
   none, 30⟩

/-- src/tools.py 423-469.  Default: `limit=50`.  This tool issues a probe
GET; when the probe succeeds and `data.get("result")` is truthy it issues a
second GET for the actual category choices, otherwise it returns
an empty result list (or the error mapping). -/
def get_incident_categories (net : Net) (limit : Int) : JVal × List SnowRequest :=
  match net sysChoiceProbeReq with
  | .exn msg => (JVal.obj [("error", .str msg)], [sysChoiceProbeReq])
  | .resp status body =>
    if raiseForStatus status then
      (JVal.obj [("error", .str (httpErrorMsg status (SNOW_BASE_URL ++ "/sys_choice")))],
       [sysChoiceProbeReq])
    else
      match body with
      | none => (JVal.obj [("error", .str jsonDecodeErrMsg)], [sysChoiceProbeReq])
      | some data =>
        match data with
        | .obj fs =>
          if pyTruthy ((lookupField fs "result").getD .null) then
            (finishRequest (SNOW_BASE_URL ++ "/sys_choice") (net (sysChoiceListReq limit)),
             [sysChoiceProbeReq, sysChoiceListReq limit])
          else
            (JVal.obj [("result", .arr [])], [sysChoiceProbeReq])
        | _ => (JVal.obj [("error", .str noGetAttrMsg)], [sysChoiceProbeReq])

/-- src/tools.py 471-496: pure static lookup, no HTTP call. -/
def get_priority_urgency_info : JVal :=
  JVal.obj
    [("priority", JVal.obj
      [("1", .str "Critical - System down, multiple users affected"),
       ("2", .str "High - Major functionality impaired"),
       ("3", .str "Moderate - Some functionality affected"),
       ("4", .str "Low - Minor issue, workaround available"),
       ("5", .str "Planning - Enhancement or future need")]),
     ("urgency", JVal.obj
      [("1", .str "High - Immediate attention required"),
       ("2", .str "Medium - Attention needed soon"),
       ("3", .str "Low - Can wait, not time-sensitive")]),
     ("impact", JVal.obj
      [("1", .str "High - Affects many users or critical business"),
       ("2", .str "Medium - Affects some users or important business"),
       ("3", .str "Low - Affects few users or minor business impact")])]

/-- src/tools.py 498-516: pure static lookup, no HTTP call. -/
def get_change_types_info : JVal :=
  JVal.obj
    [("types", JVal.obj
      [("standard", .str "Pre-approved, low-risk changes following established procedures"),
       ("normal", .str "Requires full change approval process and CAB review"),
       ("emergency", .str "Urgent changes needed to resolve critical incidents")]),
     ("risk_levels", JVal.obj
      [("low", .str "Minimal impact, easy rollback, tested procedure"),
       ("moderate", .str "Some impact possible, rollback available"),
       ("high", .str "Significant impact potential, complex rollback")])]

/-- src/tools.py 518-545.  `snow_username` is the module-level
`SNOW_USERNAME` environment configuration. -/
def get_my_info (net : Net) (snow_username : String) : JVal × List SnowRequest :=
  snowGet net "/sys_user"
    [("sysparm_query", .str ("user_name=" ++ snow_username)),
     ("sysparm_limit", .num 1),
     ("sysparm_fields", .str "sys_id,name,email,user_name,title,department,manager,phone")]

/-- src/tools.py 550-580.  Defaults: `query="active=true"`, `limit=10`. -/
def list_change_requests (net : Net) (query : String) (limit : Int) :
    JVal × List SnowRequest :=
  snowGet net "/change_request"
    [("sysparm_query", .str query), ("sysparm_limit", .num limit),
     ("sysparm_display_value", .str "true")]

/-- src/tools.py 603-616: the JSON body of `create_change_request`.  The
first five fields are always present (`description`, `type`, `risk`,
`priority` default to `""`, `"normal"`, `"moderate"`, `"3"`); the last
three are included only when truthy (non-empty). -/
def create_change_request_data (short_description description type risk priority
    assignment_group start_date end_date : String) : List (String × JVal) :=
  [("short_description", .str short_description), ("description", .str description),
   ("type", .str type), ("risk", .str risk), ("priority", .str priority)]
  ++ (if assignment_group ≠ "" then [("assignment_group", JVal.str assignment_group)] else [])
  ++ (if start_date ≠ "" then [("start_date", JVal.str start_date)] else [])
  ++ (if end_date ≠ "" then [("end_date", JVal.str end_date)] else [])

/-- src/tools.py 582-630. -/
def create_change_request (net : Net) (short_description description type risk
    priority assignment_group start_date end_date : String) :
    JVal × List SnowRequest :=
  snowPost net "/change_request"
    (create_change_request_data short_description description type risk priority
      assignment_group start_date end_date)

/-- src/tools.py 632-655. -/
def get_change_request (net : Net) (sys_id : String) : JVal × List SnowRequest :=
  snowGet net ("/change_request/" ++ sys_id) [("sysparm_display_value", .str "true")]

/-- src/tools.py 672-680: the PATCH body of `update_change_request`. -/
def update_change_request_data (state work_notes close_notes : Option String)
    (kwargs : List (String × JVal)) : List (String × JVal) :=
  dictUpdate
    (optStrField "state" state ++ optStrField "work_notes" work_notes ++
     optStrField "close_notes" close_notes)
    kwargs

/-- src/tools.py 657-694. -/
def update_change_request (net : Net) (sys_id : String)
    (state work_notes close_notes : Option String)
    (kwargs : List (String × JVal)) : JVal × List SnowRequest :=
  snowPatch net ("/change_request/" ++ sys_id)
    (update_change_request_data state work_notes close_notes kwargs)

/-- src/tools.py 698-728.  Defaults: `query="active=true"`, `limit=50`. -/
def list_assignment_groups (net : Net) (query : String) (limit : Int) :
    JVal × List SnowRequest :=
  snowGet net "/sys_user_group"
    [("sysparm_query", .str query), ("sysparm_limit", .num limit),
     ("sysparm_fields", .str "sys_id,name,description,manager,type")]

/-- src/tools.py 730-758. -/
def get_assignment_group (net : Net) (group_name : String) : JVal × List SnowRequest :=
  snowGet net "/sys_user_group"
    [("sysparm_query", .str ("name=" ++ group_name)), ("sysparm_limit", .num 1)]

/-- src/tools.py 762-792.  Default: `limit=10`. -/
def search_users (net : Net) (query : String) (limit : Int) : JVal × List SnowRequest :=
  snowGet net "/sys_user"
    [("sysparm_query",
      .str ("nameLIKE" ++ query ++ "^ORemailLIKE" ++ query ++ "^ORuser_nameLIKE" ++
        query ++ "^active=true")),
     ("sysparm_limit", .num limit),
     ("sysparm_fields", .str "sys_id,name,email,user_name,title,department")]

/-- src/tools.py 796-826.  Defaults: `query="active=true"`, `limit=10`. -/
def list_problems (net : Net) (query : String) (limit : Int) : JVal × List SnowRequest :=
  snowGet net "/problem"
    [("sysparm_query", .str query), ("sysparm_limit", .num limit),
     ("sysparm_display_value", .str "true")]

/-- src/tools.py 828-851. -/
def get_problem (net : Net) (sys_id : String) : JVal × List SnowRequest :=
  snowGet net ("/problem/" ++ sys_id) [("sysparm_display_value", .str "true")]

/-- A failing `requests` outcome: a raised exception, a 4xx/5xx status, or
a body that is not valid JSON (so `response.json()` raises). -/
def failureOutcome : HttpOutcome → Bool
  | .exn _ => true
  | .resp s b => raiseForStatus s || b.isNone

/-- Whether a tool result is a mapping carrying an `error` key. -/
def hasErrorKey : JVal → Bool
  | .obj fs => hasField fs "error"
  | _ => false

end Snow

/-!
## Webhook adapter (src/test-webhook/main.py)

The in-memory session store `sessions` is a Python dict keyed by the
conversation id taken from the inbound activity; both keys and values are
modelled as `JVal` and the dict as an association list with Python `==`
(`JVal.beq`) key comparison.  `create_session`'s external effects — token
acquisition (`get_access_token`, which may raise), the session-creation RPC
(a `requests.post` with `timeout=30`) and `uuid.uuid4()` — are modelled by
the oracle structure `SessionWorld`.  The function returns the session id,
the updated store, and the list of RPC payloads it posted.
-/

namespace Webhook

open JVal

/-- Python dict lookup `d[k]` / `k in d` on the session store. -/
def alookup : List (JVal × JVal) → JVal → Option JVal
  | [], _ => none
  | kv :: rest, k => if beq kv.1 k then some kv.2 else alookup rest k

/-- Python dict assignment `d[k] = v`. -/
def dictSet (d : List (JVal × JVal)) (k v : JVal) : List (JVal × JVal) :=
  if d.any (fun kv => beq kv.1 k) then
    d.map (fun kv => if beq kv.1 k then (k, v) else kv)
  else d ++ [(k, v)]

/-- External effects of one `create_session` call: `token = none` models
`get_access_token` raising; `rpc` is the outcome of the
`requests.post(f"..:query", json=payload, timeout=30)` call; `uuid` is the
value of `uuid.uuid4()` when a fallback id is generated. -/
structure SessionWorld where
  token : Option String
  rpc : Snow.HttpOutcome
  uuid : String

/-- The JSON payload posted to the Agent Engine `:query` endpoint by
`create_session` (src/test-webhook/main.py, 51-56). -/
def sessionCreatePayload (user_id : JVal) : JVal :=
  JVal.obj [("class_method", .str "create_session"),
            ("input", JVal.obj [("user_id", user_id)])]

/-- Models `result.get('output', \x7b\x7d).get('id')`
(src/test-webhook/main.py, line 75): `none` models the `AttributeError`
raised when `result` or its `output` value is not a dict (caught by the
surrounding `except`); otherwise the extracted id, `JVal.null` when the
`id` key is missing. -/
def sessionIdFromResult : JVal → Option JVal
  | .obj fs =>
    match (lookupField fs "output").getD (JVal.obj []) with
    | .obj os => some ((lookupField os "id").getD JVal.null)
    | _ => none
  | _ => none

/-- The session id chosen by `create_session` when the conversation is not
cached: the id extracted from a successful RPC when it is truthy, otherwise
the locally generated `fallback-<uuid>` id (used on token failure, RPC
exception, 4xx/5xx status, undecodable body, non-dict result, and missing
or falsy `output.id`).  This definition groups the source's repeated
`session_id = f"fallback-..."` assignments (lines 77-79 and 86-93). -/
def create_session_new_sid (w : SessionWorld) : JVal :=
  match w.token with
  | none => .str ("fallback-" ++ w.uuid)
  | some _ =>
    match w.rpc with
    | .exn _ => .str ("fallback-" ++ w.uuid)
    | .resp status body =>
      if Snow.raiseForStatus status then .str ("fallback-" ++ w.uuid)
      else
        match body with
        | none => .str ("fallback-" ++ w.uuid)
        | some result =>
          match sessionIdFromResult result with
          | none => .str ("fallback-" ++ w.uuid)
          | some sidv =>
            if pyTruthy sidv then sidv else .str ("fallback-" ++ w.uuid)

/-- The session-creation RPC calls posted by an uncached `create_session`
run: none when `get_access_token` raises (the `requests.post` is never
reached), exactly one otherwise. -/
def create_session_posts (w : SessionWorld) (user_id : JVal) : List JVal :=
  match w.token with
  | none => []
  | some _ => [sessionCreatePayload user_id]

/-- src/test-webhook/main.py 34-93.  Returns (session id, updated store,
RPC payloads posted).  A cached conversation id returns immediately with no
network call; otherwise the chosen id (real or fallback) is cached in every
path before returning. -/
def create_session (w : SessionWorld) (conversation_id user_id : JVal)
    (sessions : List (JVal × JVal)) :
    JVal × List (JVal × JVal) × List JVal :=
  match alookup sessions conversation_id with
  | some sid => (sid, sessions, [])
  | none =>
    let sid := create_session_new_sid w
    (sid, dictSet sessions conversation_id sid, create_session_posts w user_id)

/-- Environment-derived module configuration of the webhook
(`PROJECT_ID`, `LOCATION`, `RESOURCE_ID`, `BASE_URL`); `os.getenv` may
return `None` for the first and third. -/
structure WebhookConfig where
  projectId : JVal
  location : String
  resourceId : JVal
  baseUrl : String

/-- The inbound HTTP request as seen by the handler: path, method, and the
result of `request.get_json()` (`none` models `get_json` raising on a
malformed body, caught by the handler's outer `except`). -/
structure HttpRequest where
  path : String
  method : String
  json : Option JVal

/-- A handler response: a `jsonify` payload with a status code, or the
empty-body 204 CORS-preflight response. -/
inductive HandlerResp where
  | payload (body : JVal) (status : Nat)
  | noContent204

/-- The health-check body (src/test-webhook/main.py, 221-228). -/
def healthBody (cfg : WebhookConfig) (sessions : List (JVal × JVal)) : JVal :=
  JVal.obj
    [("status", .str "healthy"), ("project", cfg.projectId),
     ("location", .str cfg.location), ("resource_id", cfg.resourceId),
     ("base_url", .str cfg.baseUrl),
     ("active_sessions", .num (Int.ofNat sessions.length))]

/-- The canned welcome message (src/test-webhook/main.py, 263-277). -/
def welcomeMessage : String :=
  "👋 Hello! I\x27m your ServiceNow assistant powered by Google Agent Engine.\n\nI can help you with:\n• 📋 **Incidents**: Create, list, update, close\n• 🛒 **Service Catalog**: Browse and request items\n• 🔄 **Change Requests**: Create and manage changes\n• 👥 **Users & Groups**: Search and assign\n• 🔍 **Problems**: View and track\n\n**Try:**\n- \"Show me all open incidents\"\n- \"Create an incident for broken laptop\"\n- \"What can I request from catalog?\"\n\nJust ask me anything!"

/-- The catch-all 500 apology body (src/test-webhook/main.py, 315-318). -/
def errorApologyBody : JVal :=
  JVal.obj [("type", .str "message"), ("text", .str "Sorry, I encountered an error.")]

/-- src/test-webhook/main.py 212-318.  `ensure` abstracts `create_session`
(returning id, updated store, posted RPC payloads) and `qa` abstracts
`query_agent` (session id, trimmed user message, user id → reply text);
the handler returns its response, the session store after the request, and
the session RPC payloads posted while handling it.  Any exception inside
the `try` block (modelled by the non-dict cases) produces the 500 apology
response. -/
def teams_webhook (cfg : WebhookConfig)
    (ensure : JVal → JVal → List (JVal × JVal) → JVal × List (JVal × JVal) × List JVal)
    (qa : JVal → String → JVal → String)
    (req : HttpRequest) (sessions : List (JVal × JVal)) :
    HandlerResp × List (JVal × JVal) × List JVal :=
  if req.path = "/health" ∨ req.method = "GET" then
    (.payload (healthBody cfg sessions) 200, sessions, [])
  else if req.method = "OPTIONS" then
    (.noContent204, sessions, [])
  else
    match req.json with
    | none => (.payload errorApologyBody 500, sessions, [])
    | some activity =>
      if !pyTruthy activity then
        (.payload (JVal.obj [("error", .str "No activity data")]) 400, sessions, [])
      else
        match activity with
        | .obj fs =>
          let activity_type := (lookupField fs "type").getD .null
          match (lookupField fs "conversation").getD (JVal.obj []) with
          | .obj conv_fs =>
            let conversation_id := (lookupField conv_fs "id").getD (.str "default")
            match (lookupField fs "from").getD (JVal.obj []) with
            | .obj from_fs =>
              let user_id := (lookupField from_fs "id").getD (.str "teams-user")
              if isStr activity_type "conversationUpdate" &&
                  pyTruthy ((lookupField fs "membersAdded").getD (.arr [])) then
                let r := ensure conversation_id user_id sessions
                (.payload (JVal.obj [("type", .str "message"),
                   ("text", .str welcomeMessage)]) 200, r.2.1, r.2.2)
              else if isStr activity_type "message" then
                match (lookupField fs "text").getD (.str "") with
                | .str t =>
                  let user_message := pyStrip t
                  if user_message = "" then
                    (.payload (JVal.obj [("error", .str "Empty message")]) 400, sessions, [])
                  else
                    let r := ensure conversation_id user_id sessions
                    (.payload (JVal.obj [("type", .str "message"),
                       ("text", .str (qa r.1 user_message user_id))]) 200, r.2.1, r.2.2)
                | _ => (.payload errorApologyBody 500, sessions, [])
              else
                (.payload (JVal.obj [("status", .str "ok")]) 200, sessions, [])
            | _ => (.payload errorApologyBody 500, sessions, [])
          | _ => (.payload errorApologyBody 500, sessions, [])
        | _ => (.payload errorApologyBody 500, sessions, [])

end Webhook

/-!
## Concrete stream fixtures used by the witnesses
-/

namespace SSE

/-- A sample event whose first part is a streamed tool-call announcement
(both `text` and `function_call`) and whose second part is plain text. -/
def sampleCallEvent : JVal :=
  JVal.obj [("content", JVal.obj [("parts", JVal.arr
    [JVal.obj [("text", JVal.str "calling list_incidents"),
       ("function_call", JVal.obj [("name", JVal.str "list_incidents")])],
     JVal.obj [("text", JVal.str "Hello ")]])])]

/-- A sample event with a single plain-text part. -/
def sampleTextEvent : JVal :=
  JVal.obj [("content", JVal.obj [("parts", JVal.arr
    [JVal.obj [("text", JVal.str "world")]])])]

/-- A concrete `json.loads` oracle decoding the two sample payloads. -/
def sampleLoads : String → Option JVal := fun s =>
  if s = "E1" then some sampleCallEvent
  else if s = "E2" then some sampleTextEvent
  else none

/-- A sample event contributing the text `Hi `. -/
def hiEvent : JVal :=
  JVal.obj [("content", JVal.obj [("parts", JVal.arr
    [JVal.obj [("text", JVal.str "Hi ")]])])]

/-- A sample event contributing the text `there`. -/
def thereEvent : JVal :=
  JVal.obj [("content", JVal.obj [("parts", JVal.arr
    [JVal.obj [("text", JVal.str "there")]])])]

/-- A concrete `json.loads` oracle that decodes two payloads and fails on
everything else (modelling a syntactically invalid JSON line in between). -/
def brokenStreamLoads : String → Option JVal := fun s =>
  if s = "V1" then some hiEvent
  else if s = "V3" then some thereEvent
  else none

end SSE

/-!
## Lemmas
-/

namespace JVal

mutual

theorem beq_refl : ∀ a : JVal, beq a a = true
  | .null => rfl
  | .bool b => by simp [beq]
  | .num n => by simp [beq]
  | .str s => by simp [beq]
  | .arr es => by simp [beq, beqList_refl es]
  | .obj fs => by simp [beq, beqFields_refl fs]

theorem beqList_refl : ∀ l : List JVal, beqList l l = true
  | [] => rfl
  | x :: xs => by simp [beqList, beq_refl x, beqList_refl xs]

theorem beqFields_refl : ∀ l : List (String × JVal), beqFields l l = true
  | [] => rfl
  | x :: xs => by simp [beqFields, beq_refl x.2, beqFields_refl xs]

end

theorem hasField_cons (kv : String × JVal) (rest : List (String × JVal)) (k : String) :
    hasField (kv :: rest) k = ((kv.1 == k) || hasField rest k) := rfl

theorem hasField_eq_true_iff (fs : List (String × JVal)) (k : String) :
    hasField fs k = true ↔ (lookupField fs k).isSome := by
  induction fs with
  | nil => simp [hasField, lookupField]
  | cons kv rest ih =>
    by_cases h : kv.1 = k
    · simp [hasField_cons, lookupField, h]
    · have hb : (kv.1 == k) = false := by simp [h]
      simp [hasField_cons, lookupField, h, hb, ih]

theorem hasField_eq_false_iff (fs : List (String × JVal)) (k : String) :
    hasField fs k = false ↔ lookupField fs k = none := by
  rw [← Bool.not_eq_true, hasField_eq_true_iff, Option.isSome_iff_ne_none]
  simp

end JVal

namespace SSE

open JVal

theorem processPart_good (acc : String) (p : JVal) (h : goodPartB p = true) :
    processPart acc p = (acc ++ specPartText p, true) := by
  match p with
  | .null | .bool _ | .num _ | .str _ | .arr _ => simp [goodPartB] at h
  | .obj fs =>
    match hl : lookupField fs "text" with
    | none =>
      have hf : hasField fs "text" = false := (hasField_eq_false_iff fs "text").mpr hl
      simp [processPart, pyIn, hf, specPartText, hl]
    | some (.str t) =>
      have hf : hasField fs "text" = true :=
        (hasField_eq_true_iff fs "text").mpr (by simp [hl])
      by_cases hfc : hasField fs "function_call" = true
      · simp [processPart, pyIn, hf, hl, hfc, specPartText]
      · simp at hfc
        simp [processPart, pyIn, hf, hl, hfc, specPartText]
    | some .null | some (.bool _) | some (.num _) | some (.arr _) | some (.obj _) =>
      simp [goodPartB, hl] at h

theorem processParts_good (parts : List JVal) (acc : String)
    (h : parts.all goodPartB = true) :
    processParts acc parts = acc ++ strConcat (parts.map specPartText) := by
  induction parts generalizing acc with
  | nil => simp [processParts, strConcat]
  | cons p ps ih =>
    simp only [List.all_cons, Bool.and_eq_true] at h
    simp [processParts, processPart_good acc p h.1, ih _ h.2, strConcat,
      String.append_assoc]

theorem processEvent_good (acc : String) (e : JVal) (h : goodEventB e = true) :
    processEvent acc e = acc ++ specEventText e := by
  match e with
  | .null | .bool _ | .num _ | .str _ | .arr _ => simp [goodEventB] at h
  | .obj fs =>
    match hc : lookupField fs "content" with
    | none => simp [goodEventB, hc] at h
    | some .null | some (.bool _) | some (.num _) | some (.str _) | some (.arr _) =>
      simp [goodEventB, hc] at h
    | some (.obj cs) =>
      match hp : lookupField cs "parts" with
      | none => simp [goodEventB, hc, hp] at h
      | some .null | some (.bool _) | some (.num _) | some (.str _) | some (.obj _) =>
        simp [goodEventB, hc, hp] at h
      | some (.arr parts) =>
        have hfc : hasField fs "content" = true :=
          (hasField_eq_true_iff fs "content").mpr (by simp [hc])
        have hfp : hasField cs "parts" = true :=
          (hasField_eq_true_iff cs "parts").mpr (by simp [hp])
        have hall : parts.all goodPartB = true := by
          simpa [goodEventB, hc, hp] using h
        simp [processEvent, pyIn, hfc, pySubscript, hc, hfp, hp, pyIter,
          specEventText, processParts_good parts acc hall]

theorem processLine_decodes (loads : String → Option JVal) (acc line : String)
    (e : JVal) (h : decodesTo loads line e) :
    processLine loads acc line = processEvent acc e := by
  obtain ⟨h1, h2, h3, h4⟩ := h
  simp [processLine, h1, h2, h3, h4]

theorem foldl_processLine_good (loads : String → Option JVal)
    (lines : List String) (events : List JVal)
    (hdec : List.Forall₂ (decodesTo loads) lines events)
    (hgood : events.all goodEventB = true) (acc : String) :
    lines.foldl (processLine loads) acc =
      acc ++ strConcat (events.map specEventText) := by
  induction hdec generalizing acc with
  | nil => simp [strConcat]
  | cons h _ ih =>
    rename_i l e ls es _
    simp only [List.all_cons, Bool.and_eq_true] at hgood
    simp only [List.foldl_cons, processLine_decodes loads acc l e h,
      processEvent_good acc e hgood.1, ih hgood.2, List.map_cons, strConcat,
      String.append_assoc]

end SSE

namespace Snow

open JVal

theorem hasErrorKey_finishRequest (url : String) (o : HttpOutcome)
    (h : failureOutcome o = true) : hasErrorKey (finishRequest url o) = true := by
  match o with
  | .exn msg => rfl
  | .resp status body =>
    simp only [failureOutcome, Bool.or_eq_true] at h
    rcases h with h | h
    · simp [finishRequest, h, hasErrorKey, hasField]
    · match body with
      | none =>
        simp only [finishRequest]
        split
        · rfl
        · rfl
      | some j => simp at h

end Snow

namespace Webhook

open JVal

theorem alookup_append_of_none (d e : List (JVal × JVal)) (k : JVal)
    (h : alookup d k = none) : alookup (d ++ e) k = alookup e k := by
  induction d with
  | nil => simp [alookup]
  | cons kv rest ih =>
    by_cases hb : beq kv.1 k = true
    · simp [alookup, hb] at h
    · simp only [Bool.not_eq_true] at hb
      simp only [alookup, hb, Bool.false_eq_true, if_false, List.cons_append] at h ⊢
      exact ih h

theorem alookup_eq_none_any (d : List (JVal × JVal)) (k : JVal)
    (h : alookup d k = none) : d.any (fun kv => beq kv.1 k) = false := by
  induction d with
  | nil => simp
  | cons kv rest ih =>
    simp only [alookup] at h
    rcases hb : beq kv.1 k with _ | _
    · simp only [List.any_cons, hb, Bool.false_or]
      exact ih (by simpa [hb] using h)
    · simp [hb] at h

theorem alookup_dictSet_self (d : List (JVal × JVal)) (k v : JVal)
    (h : alookup d k = none) : alookup (dictSet d k v) k = some v := by
  have hany := alookup_eq_none_any d k h
  simp only [dictSet, hany, Bool.false_eq_true, if_false]
  rw [alookup_append_of_none d _ k h]
  simp [alookup, beq_refl]

theorem create_session_caches (w : SessionWorld) (c u : JVal)
    (s : List (JVal × JVal)) :
    alookup (create_session w c u s).2.1 c = some (create_session w c u s).1 := by
  rcases h : alookup s c with _ | sid
  · simp [create_session, h, alookup_dictSet_self s c _ h]
  · simp [create_session, h]

theorem create_session_posts_le_one (w : SessionWorld) (c u : JVal)
    (s : List (JVal × JVal)) : (create_session w c u s).2.2.length ≤ 1 := by
  rcases h : alookup s c with _ | sid
  · simp only [create_session, h]
    rcases ht : w.token with _ | t <;> simp [create_session_posts, ht]
  · simp [create_session, h]

theorem create_session_cached_hit (w : SessionWorld) (c u sid : JVal)
    (s : List (JVal × JVal)) (h : alookup s c = some sid) :
    create_session w c u s = (sid, s, []) := by
  simp [create_session, h]

end Webhook

/-!
## Claim theorems
-/

/-- C1: In the SSE aggregation loop of `query_agent`, for every stream of
events, any part carrying both a `text` field and a `function_call` field
contributes nothing to the final reply, while every part with a `text`
field and no `function_call` field has its text appended, in the order the
events appear in the stream: the accumulated reply equals the in-order
concatenation of the per-part contributions (`specPartText`: the part's
text when `function_call` is absent, nothing when it is present). -/
theorem query_agent_sse_part_filtering (loads : String → Option JVal)
    (lines : List String) (events : List JVal)
    (hdec : List.Forall₂ (SSE.decodesTo loads) lines events)
    (hgood : events.all SSE.goodEventB = true) :
    SSE.aggregateLines loads lines = SSE.strConcat (events.map SSE.specEventText) := by
  simpa using SSE.foldl_processLine_good loads lines events hdec hgood ""

/-- Witness for C1: a concrete two-event stream where the first event's
tool-call part (`text` plus `function_call`) is dropped and the plain text
parts are concatenated in order. -/
theorem query_agent_sse_part_filtering_witness :
    SSE.aggregateLines SSE.sampleLoads ["data: E1", "data: E2"] = "Hello world" := by
  have h := query_agent_sse_part_filtering SSE.sampleLoads ["data: E1", "data: E2"]
    [SSE.sampleCallEvent, SSE.sampleTextEvent]
    (List.Forall₂.cons ⟨by decide, by decide, by decide, rfl⟩
      (List.Forall₂.cons ⟨by decide, by decide, by decide, rfl⟩ List.Forall₂.nil))
    (by decide)
  rw [h]; decide

/-- C8: in `query_agent`, a syntactically invalid JSON line between two
valid events is skipped (the accumulator is unchanged on that line) and
both valid events' text is still aggregated — processing the three-line
stream equals processing the stream without the invalid line. -/
theorem query_agent_skips_invalid_json_line (loads : String → Option JVal)
    (l1 lb l3 : String) (e1 e3 : JVal)
    (h1 : SSE.decodesTo loads l1 e1)
    (hb0 : lb ≠ "") (hb1 : pyStrip (SSE.stripData lb) ≠ "")
    (hb2 : pyStrip (SSE.stripData lb) ≠ "[DONE]")
    (hb3 : loads (SSE.stripData lb) = none)
    (h3 : SSE.decodesTo loads l3 e3) :
    SSE.aggregateLines loads [l1, lb, l3]
        = SSE.processEvent (SSE.processEvent "" e1) e3
  ∧ SSE.aggregateLines loads [l1, lb, l3] = SSE.aggregateLines loads [l1, l3] := by
  have ha : ∀ acc, SSE.processLine loads acc l1 = SSE.processEvent acc e1 :=
    fun acc => SSE.processLine_decodes loads acc l1 e1 h1
  have hcₗ : ∀ acc, SSE.processLine loads acc l3 = SSE.processEvent acc e3 :=
    fun acc => SSE.processLine_decodes loads acc l3 e3 h3
  have pb : ∀ acc, SSE.processLine loads acc lb = acc := fun acc => by
    simp [SSE.processLine, hb0, hb1, hb2, hb3]
  exact ⟨by simp [SSE.aggregateLines, ha, pb, hcₗ], by simp [SSE.aggregateLines, ha, pb, hcₗ]⟩

/-- Witness for C8: a concrete stream with an undecodable middle line. -/
theorem query_agent_skips_invalid_json_line_witness :
    SSE.aggregateLines SSE.brokenStreamLoads ["data: V1", "data: NOTJSON", "data: V3"]
      = "Hi there" := by
  have h := query_agent_skips_invalid_json_line SSE.brokenStreamLoads
    "data: V1" "data: NOTJSON" "data: V3" SSE.hiEvent SSE.thereEvent
    ⟨by decide, by decide, by decide, rfl⟩ (by decide) (by decide) (by decide) rfl
    ⟨by decide, by decide, by decide, rfl⟩
  rw [h.1]; decide

/-- C6: calling `create_session` twice in sequence with the same
conversation id returns the same id both times, leaves the store of the
first call unchanged, performs at most one session-creation RPC across the
two calls (the second performs none), and the returned id is exactly the
one cached by the first call. -/
theorem create_session_second_call_cached (w1 w2 : Webhook.SessionWorld)
    (conv u1 u2 : JVal) (s0 : List (JVal × JVal)) :
    (Webhook.create_session w2 conv u2 (Webhook.create_session w1 conv u1 s0).2.1).1
        = (Webhook.create_session w1 conv u1 s0).1
  ∧ (Webhook.create_session w2 conv u2 (Webhook.create_session w1 conv u1 s0).2.1).2.1
        = (Webhook.create_session w1 conv u1 s0).2.1
  ∧ (Webhook.create_session w1 conv u1 s0).2.2.length
      + (Webhook.create_session w2 conv u2 (Webhook.create_session w1 conv u1 s0).2.1).2.2.length ≤ 1
  ∧ Webhook.alookup (Webhook.create_session w1 conv u1 s0).2.1 conv
        = some (Webhook.create_session w1 conv u1 s0).1 := by
  have hc := Webhook.create_session_caches w1 conv u1 s0
  have h2 := Webhook.create_session_cached_hit w2 conv u2
    (Webhook.create_session w1 conv u1 s0).1 (Webhook.create_session w1 conv u1 s0).2.1 hc
  refine ⟨by rw [h2], by rw [h2], ?_, hc⟩
  rw [h2]
  simpa using Webhook.create_session_posts_le_one w1 conv u1 s0

/-- C9: when the session-creation RPC succeeds (no 4xx/5xx raise, JSON
body) but the response has no truthy `output.id`, `create_session` caches
and returns a locally generated `fallback-<uuid>` id, with exactly the
same result (same id, same store, one RPC posted) as the exception path
with the same uuid. -/
theorem create_session_missing_id_fallback (w : Webhook.SessionWorld) (tok : String)
    (conv u : JVal) (s0 : List (JVal × JVal)) (status : Nat) (result sidv : JVal)
    (m : String)
    (hc : Webhook.alookup s0 conv = none)
    (ht : w.token = some tok)
    (hr : w.rpc = Snow.HttpOutcome.resp status (some result))
    (hs : Snow.raiseForStatus status = false)
    (hid : Webhook.sessionIdFromResult result = some sidv)
    (hfalsy : JVal.pyTruthy sidv = false) :
    Webhook.create_session w conv u s0
        = (JVal.str ("fallback-" ++ w.uuid),
           Webhook.dictSet s0 conv (JVal.str ("fallback-" ++ w.uuid)),
           [Webhook.sessionCreatePayload u])
  ∧ Webhook.create_session w conv u s0
        = Webhook.create_session ⟨some tok, Snow.HttpOutcome.exn m, w.uuid⟩ conv u s0 := by
  constructor
  · simp [Webhook.create_session, hc, Webhook.create_session_new_sid, ht, hr, hs,
      hfalsy, hid, Webhook.create_session_posts]
  · simp [Webhook.create_session, hc, Webhook.create_session_new_sid, ht, hr, hs,
      hfalsy, hid, Webhook.create_session_posts]

/-- Witness for C9: a 200 response whose body is a dict with an empty
`output` dict (so `output.id` is missing). -/
theorem create_session_missing_id_fallback_witness :
    Webhook.create_session
      ⟨some "tok", Snow.HttpOutcome.resp 200 (some (JVal.obj [("output", JVal.obj [])])), "abc"⟩
      (JVal.str "c1") (JVal.str "u1") []
      = (JVal.str ("fallback-" ++ "abc"),
         Webhook.dictSet [] (JVal.str "c1") (JVal.str ("fallback-" ++ "abc")),
         [Webhook.sessionCreatePayload (JVal.str "u1")]) :=
  (create_session_missing_id_fallback
    ⟨some "tok", Snow.HttpOutcome.resp 200 (some (JVal.obj [("output", JVal.obj [])])), "abc"⟩
    "tok" (JVal.str "c1") (JVal.str "u1") [] 200 (JVal.obj [("output", JVal.obj [])])
    JVal.null "boom" rfl rfl rfl rfl rfl rfl).1

/-- C10: every request whose HTTP method is `GET` — whatever its path —
returns the health payload with status 200, leaves the session store
untouched and posts no session RPC: activity processing is never
reached. -/
theorem teams_webhook_get_returns_health (cfg : Webhook.WebhookConfig)
    (ensure : JVal → JVal → List (JVal × JVal) → JVal × List (JVal × JVal) × List JVal)
    (qa : JVal → String → JVal → String) (req : Webhook.HttpRequest)
    (sessions : List (JVal × JVal)) (h : req.method = "GET") :
    Webhook.teams_webhook cfg ensure qa req sessions
      = (.payload (Webhook.healthBody cfg sessions) 200, sessions, []) := by
  unfold Webhook.teams_webhook
  rw [if_pos (Or.inr h)]

/-- Witness for C10: a message activity posted with method `GET` to a
non-health path still yields the health payload. -/
theorem teams_webhook_get_returns_health_witness :
    Webhook.teams_webhook ⟨JVal.str "proj", "us-central1", JVal.str "res", "https://base"⟩
      (fun _ _ s => (JVal.str "sid", s, [])) (fun _ _ _ => "reply")
      ⟨"/api/messages", "GET", some (JVal.obj [("type", JVal.str "message"),
        ("text", JVal.str "Show me all open incidents")])⟩ []
      = (.payload (Webhook.healthBody
          ⟨JVal.str "proj", "us-central1", JVal.str "res", "https://base"⟩ []) 200, [], []) :=
  teams_webhook_get_returns_health _ _ _ _ _ rfl

/-!
## Tool-function claims
-/

/-- Helper for C2: `get_incident_categories` returns an error mapping whenever the network
oracle produces a failing outcome (for both of its possible calls). -/
theorem gic_error_on_failure (o : Snow.HttpOutcome) (h : Snow.failureOutcome o = true)
    (limit : Int) :
    Snow.hasErrorKey (Snow.get_incident_categories (fun _ => o) limit).1 = true := by
  rcases o with ⟨status, body⟩ | msg
  · simp only [Snow.failureOutcome, Bool.or_eq_true] at h
    rcases h with hr | hn
    · simp [Snow.get_incident_categories, hr, Snow.hasErrorKey, JVal.hasField]
    · rcases body with _ | d
      · simp only [Snow.get_incident_categories]
        split
        · rfl
        · rfl
      · simp at hn
  · rfl

/-- C2 (amended): for every ServiceNow tool function, whenever the
`requests` call fails — a raised exception, a 4xx/5xx status (the range
`raise_for_status` raises on), or an undecodable body — the returned value
is a mapping containing an `error` key; the embedded functions are total,
never propagating an exception. -/
theorem snow_tools_failure_returns_error_mapping (o : Snow.HttpOutcome)
    (h : Snow.failureOutcome o = true) :
    (∀ query limit, Snow.hasErrorKey (Snow.list_incidents (fun _ => o) query limit).1 = true)
  ∧ (∀ a b c d e f g i,
      Snow.hasErrorKey (Snow.create_incident (fun _ => o) a b c d e f g i).1 = true)
  ∧ (∀ sys_id, Snow.hasErrorKey (Snow.get_incident (fun _ => o) sys_id).1 = true)
  ∧ (∀ sys_id a b c d e kwargs,
      Snow.hasErrorKey (Snow.update_incident (fun _ => o) sys_id a b c d e kwargs).1 = true)
  ∧ (∀ query limit,
      Snow.hasErrorKey (Snow.list_service_requests (fun _ => o) query limit).1 = true)
  ∧ (∀ a b c q,
      Snow.hasErrorKey (Snow.create_service_request (fun _ => o) a b c q).1 = true)
  ∧ (∀ sys_id, Snow.hasErrorKey (Snow.get_service_request (fun _ => o) sys_id).1 = true)
  ∧ (∀ category limit,
      Snow.hasErrorKey (Snow.list_catalog_items (fun _ => o) category limit).1 = true)
  ∧ (∀ term limit,
      Snow.hasErrorKey (Snow.search_catalog_items (fun _ => o) term limit).1 = true)
  ∧ (∀ sys_id,
      Snow.hasErrorKey (Snow.get_catalog_item_details (fun _ => o) sys_id).1 = true)
  ∧ (∀ limit, Snow.hasErrorKey (Snow.list_catalog_categories (fun _ => o) limit).1 = true)
  ∧ (∀ limit, Snow.hasErrorKey (Snow.get_incident_categories (fun _ => o) limit).1 = true)
  ∧ (∀ username, Snow.hasErrorKey (Snow.get_my_info (fun _ => o) username).1 = true)
  ∧ (∀ query limit,
      Snow.hasErrorKey (Snow.list_change_requests (fun _ => o) query limit).1 = true)
  ∧ (∀ a b c d e f g i,
      Snow.hasErrorKey (Snow.create_change_request (fun _ => o) a b c d e f g i).1 = true)
  ∧ (∀ sys_id, Snow.hasErrorKey (Snow.get_change_request (fun _ => o) sys_id).1 = true)
  ∧ (∀ sys_id a b c kwargs,
      Snow.hasErrorKey (Snow.update_change_request (fun _ => o) sys_id a b c kwargs).1 = true)
  ∧ (∀ query limit,
      Snow.hasErrorKey (Snow.list_assignment_groups (fun _ => o) query limit).1 = true)
  ∧ (∀ group_name,
      Snow.hasErrorKey (Snow.get_assignment_group (fun _ => o) group_name).1 = true)
  ∧ (∀ query limit, Snow.hasErrorKey (Snow.search_users (fun _ => o) query limit).1 = true)
  ∧ (∀ query limit, Snow.hasErrorKey (Snow.list_problems (fun _ => o) query limit).1 = true)
  ∧ (∀ sys_id, Snow.hasErrorKey (Snow.get_problem (fun _ => o) sys_id).1 = true) :=
  ⟨fun _ _ => Snow.hasErrorKey_finishRequest _ o h,
   fun _ _ _ _ _ _ _ _ => Snow.hasErrorKey_finishRequest _ o h,
   fun _ => Snow.hasErrorKey_finishRequest _ o h,
   fun _ _ _ _ _ _ _ => Snow.hasErrorKey_finishRequest _ o h,
   fun _ _ => Snow.hasErrorKey_finishRequest _ o h,
   fun _ _ _ _ => Snow.hasErrorKey_finishRequest _ o h,
   fun _ => Snow.hasErrorKey_finishRequest _ o h,
   fun _ _ => Snow.hasErrorKey_finishRequest _ o h,
   fun _ _ => Snow.hasErrorKey_finishRequest _ o h,
   fun _ => Snow.hasErrorKey_finishRequest _ o h,
   fun _ => Snow.hasErrorKey_finishRequest _ o h,
   fun limit => gic_error_on_failure o h limit,
   fun _ => Snow.hasErrorKey_finishRequest _ o h,
   fun _ _ => Snow.hasErrorKey_finishRequest _ o h,
   fun _ _ _ _ _ _ _ _ => Snow.hasErrorKey_finishRequest _ o h,
   fun _ => Snow.hasErrorKey_finishRequest _ o h,
   fun _ _ _ _ _ => Snow.hasErrorKey_finishRequest _ o h,
   fun _ _ => Snow.hasErrorKey_finishRequest _ o h,
   fun _ => Snow.hasErrorKey_finishRequest _ o h,
   fun _ _ => Snow.hasErrorKey_finishRequest _ o h,
   fun _ _ => Snow.hasErrorKey_finishRequest _ o h,
   fun _ => Snow.hasErrorKey_finishRequest _ o h⟩

/-- Witness for C2 at a concrete raised connection error. -/
theorem snow_tools_failure_returns_error_mapping_witness :
    Snow.failureOutcome (Snow.HttpOutcome.exn "Connection refused") = true
  ∧ Snow.hasErrorKey
      (Snow.list_incidents (fun _ => Snow.HttpOutcome.exn "Connection refused")
        "active=true" 10).1 = true :=
  ⟨rfl, (snow_tools_failure_returns_error_mapping (Snow.HttpOutcome.exn "Connection refused")
    rfl).1 "active=true" 10⟩

/-- Counterexample to C2 as stated: a non-2xx final response outside the
4xx/5xx range (e.g. a 301 with no usable redirect) does not make
`raise_for_status` raise, so a decodable JSON body is returned as-is with
no `error` key. -/
theorem list_incidents_non2xx_redirect_no_error :
    (Snow.list_incidents
      (fun _ => Snow.HttpOutcome.resp 301 (some (JVal.obj [("result", JVal.arr [])])))
      "active=true" 10).1 = JVal.obj [("result", JVal.arr [])]
  ∧ Snow.hasErrorKey
      (Snow.list_incidents
        (fun _ => Snow.HttpOutcome.resp 301 (some (JVal.obj [("result", JVal.arr [])])))
        "active=true" 10).1 = false
  ∧ ¬(200 ≤ 301 ∧ 301 < 300) :=
  ⟨rfl, rfl, by decide⟩

/-- Helper for C4: `get_incident_categories` issues one request, or two when the probe
succeeds with a truthy `result`; every issued request has timeout 30. -/
theorem gic_call_counts (net : Snow.Net) (limit : Int) :
    (Snow.get_incident_categories net limit).2.map (fun r => r.timeout) = [30] ∨
    (Snow.get_incident_categories net limit).2.map (fun r => r.timeout) = [30, 30] := by
  rcases h : net Snow.sysChoiceProbeReq with ⟨status, body⟩ | msg
  · rcases body with _ | data
    · simp only [Snow.get_incident_categories, h]
      split
      · left; rfl
      · left; rfl
    · rcases data with _ | b | n | s | es | fs
      · simp only [Snow.get_incident_categories, h]
        split
        · left; rfl
        · left; rfl
      · simp only [Snow.get_incident_categories, h]
        split
        · left; rfl
        · left; rfl
      · simp only [Snow.get_incident_categories, h]
        split
        · left; rfl
        · left; rfl
      · simp only [Snow.get_incident_categories, h]
        split
        · left; rfl
        · left; rfl
      · simp only [Snow.get_incident_categories, h]
        split
        · left; rfl
        · left; rfl
      · simp only [Snow.get_incident_categories, h]
        split
        · left; rfl
        · split
          · right; rfl
          · left; rfl
  · simp only [Snow.get_incident_categories, h]
    left; rfl

/-- C4 (amended): every ServiceNow client tool except
`get_incident_categories` (and the two pure informational lookups, which
take no network oracle at all) issues exactly one HTTP call per invocation
with timeout 30; `get_incident_categories` issues one or two calls, all
with timeout 30. -/
theorem snow_tools_http_call_counts (net : Snow.Net) :
    (∀ query limit, (Snow.list_incidents net query limit).2.map (fun r => r.timeout) = [30])
  ∧ (∀ a b c d e f g i,
      (Snow.create_incident net a b c d e f g i).2.map (fun r => r.timeout) = [30])
  ∧ (∀ sys_id, (Snow.get_incident net sys_id).2.map (fun r => r.timeout) = [30])
  ∧ (∀ sys_id a b c d e kwargs,
      (Snow.update_incident net sys_id a b c d e kwargs).2.map (fun r => r.timeout) = [30])
  ∧ (∀ query limit,
      (Snow.list_service_requests net query limit).2.map (fun r => r.timeout) = [30])
  ∧ (∀ a b c q, (Snow.create_service_request net a b c q).2.map (fun r => r.timeout) = [30])
  ∧ (∀ sys_id, (Snow.get_service_request net sys_id).2.map (fun r => r.timeout) = [30])
  ∧ (∀ category limit,
      (Snow.list_catalog_items net category limit).2.map (fun r => r.timeout) = [30])
  ∧ (∀ term limit,
      (Snow.search_catalog_items net term limit).2.map (fun r => r.timeout) = [30])
  ∧ (∀ sys_id, (Snow.get_catalog_item_details net sys_id).2.map (fun r => r.timeout) = [30])
  ∧ (∀ limit, (Snow.list_catalog_categories net limit).2.map (fun r => r.timeout) = [30])
  ∧ (∀ username, (Snow.get_my_info net username).2.map (fun r => r.timeout) = [30])
  ∧ (∀ query limit,
      (Snow.list_change_requests net query limit).2.map (fun r => r.timeout) = [30])
  ∧ (∀ a b c d e f g i,
      (Snow.create_change_request net a b c d e f g i).2.map (fun r => r.timeout) = [30])
  ∧ (∀ sys_id, (Snow.get_change_request net sys_id).2.map (fun r => r.timeout) = [30])
  ∧ (∀ sys_id a b c kwargs,
      (Snow.update_change_request net sys_id a b c kwargs).2.map (fun r => r.timeout) = [30])
  ∧ (∀ query limit,
      (Snow.list_assignment_groups net query limit).2.map (fun r => r.timeout) = [30])
  ∧ (∀ group_name, (Snow.get_assignment_group net group_name).2.map (fun r => r.timeout) = [30])
  ∧ (∀ query limit, (Snow.search_users net query limit).2.map (fun r => r.timeout) = [30])
  ∧ (∀ query limit, (Snow.list_problems net query limit).2.map (fun r => r.timeout) = [30])
  ∧ (∀ sys_id, (Snow.get_problem net sys_id).2.map (fun r => r.timeout) = [30])
  ∧ (∀ limit, (Snow.get_incident_categories net limit).2.map (fun r => r.timeout) = [30]
       ∨ (Snow.get_incident_categories net limit).2.map (fun r => r.timeout) = [30, 30]) :=
  ⟨fun _ _ => rfl, fun _ _ _ _ _ _ _ _ => rfl, fun _ => rfl, fun _ _ _ _ _ _ _ => rfl,
   fun _ _ => rfl, fun _ _ _ _ => rfl, fun _ => rfl, fun _ _ => rfl, fun _ _ => rfl,
   fun _ => rfl, fun _ => rfl, fun _ => rfl, fun _ _ => rfl, fun _ _ _ _ _ _ _ _ => rfl,
   fun _ => rfl, fun _ _ _ _ _ => rfl, fun _ _ => rfl, fun _ => rfl, fun _ _ => rfl,
   fun _ _ => rfl, fun _ => rfl, fun limit => gic_call_counts net limit⟩

/-- Counterexample to C4 as stated: `get_incident_categories` is not one of
the two pure informational lookups, yet it issues two HTTP calls when the
probe returns a truthy result list. -/
theorem get_incident_categories_issues_two_calls :
    ((Snow.get_incident_categories
      (fun _ => Snow.HttpOutcome.resp 200 (some (JVal.obj [("result", JVal.arr
        [JVal.obj [("label", JVal.str "Hardware"), ("value", JVal.str "hardware")]])])))
      50).2).length = 2 := rfl

/-- C5 (amended): on failure every tool returns the single-key mapping
`\x7b"error": str(e)\x7d`.  An HTTP error (4xx/5xx) produces an `error`
string built from the status code and URL — the response body does not
appear, and the shape is identical to the one produced for any other
exception, so the two failure kinds are not structurally distinguished. -/
theorem snow_tools_error_result_shape (url : String) (status : Nat)
    (body : Option JVal) (msg : String) (hs : Snow.raiseForStatus status = true) :
    Snow.finishRequest url (Snow.HttpOutcome.resp status body)
        = JVal.obj [("error", JVal.str (Snow.httpErrorMsg status url))]
  ∧ Snow.finishRequest url (Snow.HttpOutcome.exn msg)
        = JVal.obj [("error", JVal.str msg)]
  ∧ (∀ query limit,
      (Snow.list_incidents (fun _ => Snow.HttpOutcome.resp status body) query limit).1
        = JVal.obj [("error",
            JVal.str (Snow.httpErrorMsg status (Snow.SNOW_BASE_URL ++ "/incident")))])
  ∧ (∀ a b c d e f g i,
      (Snow.create_incident (fun _ => Snow.HttpOutcome.resp status body) a b c d e f g i).1
        = JVal.obj [("error",
            JVal.str (Snow.httpErrorMsg status (Snow.SNOW_BASE_URL ++ "/incident")))]) := by
  have h1 : ∀ u_, Snow.finishRequest u_ (Snow.HttpOutcome.resp status body)
      = JVal.obj [("error", JVal.str (Snow.httpErrorMsg status u_))] := fun u_ => by
    simp [Snow.finishRequest, hs]
  exact ⟨h1 url, rfl, fun _ _ => h1 _, fun _ _ _ _ _ _ _ _ => h1 _⟩

/-- Witness for C5 at a concrete 500 response. -/
theorem snow_tools_error_result_shape_witness :
    Snow.raiseForStatus 500 = true
  ∧ Snow.finishRequest "https://u" (Snow.HttpOutcome.resp 500 (some (JVal.str "b")))
      = JVal.obj [("error", JVal.str (Snow.httpErrorMsg 500 "https://u"))] :=
  ⟨rfl, (snow_tools_error_result_shape "https://u" 500 (some (JVal.str "b")) "m" rfl).1⟩

/-- Counterexample to C5 as stated: an HTTP 404 with a response body and a
generic exception carrying the same message produce literally identical
error results — a single `error` string in which the response body never
appears — so the error result does not distinguish HTTP errors with
structured status/body data from other exceptions. -/
theorem http_error_result_matches_generic_exception :
    (Snow.list_incidents
      (fun _ => Snow.HttpOutcome.resp 404 (some (JVal.str "secret-response-body")))
      "active=true" 10).1
      = (Snow.list_incidents
          (fun _ => Snow.HttpOutcome.exn
            (Snow.httpErrorMsg 404 (Snow.SNOW_BASE_URL ++ "/incident")))
          "active=true" 10).1
  ∧ (Snow.list_incidents
      (fun _ => Snow.HttpOutcome.resp 404 (some (JVal.str "secret-response-body")))
      "active=true" 10).1
      = JVal.obj [("error",
          JVal.str (Snow.httpErrorMsg 404 (Snow.SNOW_BASE_URL ++ "/incident")))]
  ∧ JVal.strContains (Snow.httpErrorMsg 404 (Snow.SNOW_BASE_URL ++ "/incident"))
      "secret-response-body" = false :=
  ⟨rfl, rfl, by decide⟩

/-- C3 (amended): in the bodies built by `create_incident` and
`create_change_request`, the conditionally-included optional fields
(`assignment_group`, `assigned_to`, `category`, `subcategory`;
`assignment_group`, `start_date`, `end_date`) are absent exactly when not
provided (empty), while `short_description` and the defaulted fields —
in particular `description`, sent as the empty string when omitted — are
always present; the request body is exactly the built data. -/
theorem create_functions_optional_field_inclusion
    (sd d p u ag assigned cat sub ty rk sdate edate : String) :
    (JVal.lookupField (Snow.create_incident_data sd d p u ag assigned cat sub)
        "short_description" = some (JVal.str sd))
  ∧ (JVal.lookupField (Snow.create_incident_data sd d p u ag assigned cat sub)
        "description" = some (JVal.str d))
  ∧ (JVal.lookupField (Snow.create_incident_data sd d p u ag assigned cat sub)
        "priority" = some (JVal.str p))
  ∧ (JVal.lookupField (Snow.create_incident_data sd d p u ag assigned cat sub)
        "urgency" = some (JVal.str u))
  ∧ (JVal.lookupField (Snow.create_incident_data sd d p u ag assigned cat sub)
        "assignment_group" = if ag = "" then none else some (JVal.str ag))
  ∧ (JVal.lookupField (Snow.create_incident_data sd d p u ag assigned cat sub)
        "assigned_to" = if assigned = "" then none else some (JVal.str assigned))
  ∧ (JVal.lookupField (Snow.create_incident_data sd d p u ag assigned cat sub)
        "category" = if cat = "" then none else some (JVal.str cat))
  ∧ (JVal.lookupField (Snow.create_incident_data sd d p u ag assigned cat sub)
        "subcategory" = if sub = "" then none else some (JVal.str sub))
  ∧ (JVal.lookupField (Snow.create_change_request_data sd d ty rk p ag sdate edate)
        "short_description" = some (JVal.str sd))
  ∧ (JVal.lookupField (Snow.create_change_request_data sd d ty rk p ag sdate edate)
        "description" = some (JVal.str d))
  ∧ (JVal.lookupField (Snow.create_change_request_data sd d ty rk p ag sdate edate)
        "type" = some (JVal.str ty))
  ∧ (JVal.lookupField (Snow.create_change_request_data sd d ty rk p ag sdate edate)
        "risk" = some (JVal.str rk))
  ∧ (JVal.lookupField (Snow.create_change_request_data sd d ty rk p ag sdate edate)
        "priority" = some (JVal.str p))
  ∧ (JVal.lookupField (Snow.create_change_request_data sd d ty rk p ag sdate edate)
        "assignment_group" = if ag = "" then none else some (JVal.str ag))
  ∧ (JVal.lookupField (Snow.create_change_request_data sd d ty rk p ag sdate edate)
        "start_date" = if sdate = "" then none else some (JVal.str sdate))
  ∧ (JVal.lookupField (Snow.create_change_request_data sd d ty rk p ag sdate edate)
        "end_date" = if edate = "" then none else some (JVal.str edate))
  ∧ (∀ net, (Snow.create_incident net sd d p u ag assigned cat sub).2
        = [⟨Snow.Method.post, "/incident", [],
            some (JVal.obj (Snow.create_incident_data sd d p u ag assigned cat sub)), 30⟩])
  ∧ (∀ net, (Snow.create_change_request net sd d ty rk p ag sdate edate).2
        = [⟨Snow.Method.post, "/change_request", [],
            some (JVal.obj (Snow.create_change_request_data sd d ty rk p ag sdate edate)),
            30⟩]) := by
  refine ⟨?_, ?_, ?_, ?_, ?_, ?_, ?_, ?_, ?_, ?_, ?_, ?_, ?_, ?_, ?_, ?_,
    fun net => rfl, fun net => rfl⟩ <;>
  · simp only [Snow.create_incident_data, Snow.create_change_request_data]
    split_ifs <;> simp_all [JVal.lookupField]

/-- Counterexample to C3 as stated: with `description` not provided
(defaulting to `""`), both create functions still send a `description`
field, as an empty string, in the JSON request body. -/
theorem create_functions_send_empty_description :
    (Snow.create_incident (fun _ => Snow.HttpOutcome.exn "net down")
        "Broken laptop" "" "3" "3" "" "" "" "").2
      = [⟨Snow.Method.post, "/incident", [],
          some (JVal.obj [("short_description", JVal.str "Broken laptop"),
            ("description", JVal.str ""), ("priority", JVal.str "3"),
            ("urgency", JVal.str "3")]), 30⟩]
  ∧ JVal.lookupField (Snow.create_incident_data "Broken laptop" "" "3" "3" "" "" "" "")
      "description" = some (JVal.str "")
  ∧ (Snow.create_change_request (fun _ => Snow.HttpOutcome.exn "net down")
        "OS patch" "" "normal" "moderate" "3" "" "" "").2
      = [⟨Snow.Method.post, "/change_request", [],
          some (JVal.obj [("short_description", JVal.str "OS patch"),
            ("description", JVal.str ""), ("type", JVal.str "normal"),
            ("risk", JVal.str "moderate"), ("priority", JVal.str "3")]), 30⟩]
  ∧ JVal.lookupField
      (Snow.create_change_request_data "OS patch" "" "normal" "moderate" "3" "" "" "")
      "description" = some (JVal.str "") :=
  ⟨rfl, rfl, rfl, rfl⟩

/-- Every key of `dictUpdate base upd` comes from `base` or from `upd`. -/
theorem dictUpdate_keys (base upd : List (String × JVal)) (kv : String × JVal)
    (h : kv ∈ Snow.dictUpdate base upd) :
    kv.1 ∈ base.map Prod.fst ∨ kv.1 ∈ upd.map Prod.fst := by
  simp only [Snow.dictUpdate, List.mem_append, List.mem_filter] at h
  rcases h with h | ⟨hmem, _⟩
  · rw [List.mem_map] at h
    rcases h with ⟨a, ha, heq⟩
    rcases hl : JVal.lookupField upd a.1 with _ | v
    · simp only [hl] at heq
      left; rw [List.mem_map]; exact ⟨a, ha, by rw [← heq]⟩
    · simp only [hl] at heq
      left; rw [List.mem_map]; exact ⟨a, ha, by rw [← heq]⟩
  · right; rw [List.mem_map]; exact ⟨kv, hmem, rfl⟩

/-- A key taken from `optStrField k o` is `k`, and `o` was provided. -/
theorem mem_optStrField_keys {x k : String} {o : Option String}
    (h : x ∈ (Snow.optStrField k o).map Prod.fst) : x = k ∧ o.isSome := by
  rcases o with _ | s
  · simp [Snow.optStrField] at h
  · by_cases hs : s = ""
    · simp [Snow.optStrField, hs] at h
    · simp [Snow.optStrField, hs] at h
      exact ⟨h, rfl⟩

/-- C7: the PATCH bodies of `update_incident` and `update_change_request`
contain only fields explicitly provided by the caller — a named optional
argument that was passed, or a key of `kwargs`; every omitted field is
absent from the body.  The request body is exactly the built data. -/
theorem update_functions_only_send_provided_fields
    (state work_notes close_notes assignment_group assigned_to : Option String)
    (kwargs : List (String × JVal)) :
    ((Snow.update_incident_data state work_notes close_notes assignment_group
        assigned_to kwargs).all
      (fun kv => decide (kv.1 ∈
        ((if state.isSome then ["state"] else []) ++
         (if work_notes.isSome then ["work_notes"] else []) ++
         (if close_notes.isSome then ["close_notes"] else []) ++
         (if assignment_group.isSome then ["assignment_group"] else []) ++
         (if assigned_to.isSome then ["assigned_to"] else []) ++
         kwargs.map Prod.fst))) = true)
  ∧ ((Snow.update_change_request_data state work_notes close_notes kwargs).all
      (fun kv => decide (kv.1 ∈
        ((if state.isSome then ["state"] else []) ++
         (if work_notes.isSome then ["work_notes"] else []) ++
         (if close_notes.isSome then ["close_notes"] else []) ++
         kwargs.map Prod.fst))) = true)
  ∧ (∀ net sys_id,
      (Snow.update_incident net sys_id state work_notes close_notes assignment_group
        assigned_to kwargs).2
        = [⟨Snow.Method.patch, "/incident/" ++ sys_id, [],
            some (JVal.obj (Snow.update_incident_data state work_notes close_notes
              assignment_group assigned_to kwargs)), 30⟩])
  ∧ (∀ net sys_id,
      (Snow.update_change_request net sys_id state work_notes close_notes kwargs).2
        = [⟨Snow.Method.patch, "/change_request/" ++ sys_id, [],
            some (JVal.obj (Snow.update_change_request_data state work_notes close_notes
              kwargs)), 30⟩]) := by
  refine ⟨?_, ?_, fun net sys_id => rfl, fun net sys_id => rfl⟩
  · rw [List.all_eq_true]
    intro kv hkv
    rw [decide_eq_true_eq]
    rcases dictUpdate_keys _ _ _ hkv with hb | hu
    · simp only [List.map_append, List.mem_append] at hb
      rcases hb with ((((h | h) | h) | h) | h) <;>
      · obtain ⟨heq, hsome⟩ := mem_optStrField_keys h
        simp [heq, hsome, List.mem_append]
    · simp [List.mem_append, hu]
  · rw [List.all_eq_true]
    intro kv hkv
    rw [decide_eq_true_eq]
    rcases dictUpdate_keys _ _ _ hkv with hb | hu
    · simp only [List.map_append, List.mem_append] at hb
      rcases hb with ((h | h) | h) <;>
      · obtain ⟨heq, hsome⟩ := mem_optStrField_keys h
        simp [heq, hsome, List.mem_append]
    · simp [List.mem_append, hu]
